import Mathlib

/-!
Verification of the `SidebarButton.vue` component
(`src/frontend/components/commons/sidebar/SidebarButton.vue`).

The component is a stateless presentational widget.  We embed it shallowly:
the props record, the template's render output (class bindings, `href`,
`data-title`, the child `svgicon`, and the commented-out help `svgicon`),
the `@click` handler's emitted events, and the `type` prop validator all
become pure Lean functions over the props.
-/

namespace SidebarButton

/-- The props declared in the component's `props:` block.
`activeView` has `default: () => []`; the other four are `required`. -/
structure Props where
  activeView : List String
  tooltip : String
  id : String
  icon : String
  type : String
deriving Repr, DecidableEq

/-- `default: () => []` for the `activeView` prop. -/
def activeViewDefault : List String := []

/-- Resolution of the optional `activeView` prop: a parent that supplies no
value gets the declared default `[]`. -/
def mkProps (activeView : Option (List String)) (tooltip id icon type : String) :
    Props :=
  { activeView := activeView.getD activeViewDefault
    tooltip := tooltip
    id := id
    icon := icon
    type := type }

/-- JavaScript's `String.prototype.toLowerCase()`: lowercase the string
character by character. -/
def toLowerCase (s : String) : String := ⟨s.data.map Char.toLower⟩

/-- `validator: (value) => ["Mode", "Metrics", "Refresh"].includes(value)`
on the `type` prop. -/
def validator (value : String) : Bool :=
  ["Mode", "Metrics", "Refresh"].contains value

/-- One emitted Vue event: `$emit(name, payload)`. -/
structure EmittedEvent where
  name : String
  payload : String
deriving Repr, DecidableEq

/-- The anchor element produced by the template.
`classList` is the computed `:class` binding; `staticClass` is the static
`class="sidebar-button"` attribute that Vue merges with it; `dataTitle`
models the `:data-title` binding (`none` = attribute absent, as binding
`null` removes the attribute); `helpIcon` models the secondary help
`svgicon`, which is commented out in the template and therefore never
rendered; `svgiconName` is the `:name` of the child `<svgicon>`. -/
structure RenderedAnchor where
  staticClass : String
  classList : List String
  href : String
  dataTitle : Option String
  helpIcon : Option String
  svgiconName : String
deriving Repr, DecidableEq

/-- The template as a function of the props:

```
<a class="sidebar-button"
   :class="[type.toLowerCase(), activeView.includes(id) ? 'active' : '']"
   href="#"
   :data-title="!activeView.includes(id) ? tooltip : null">
  <!-- commented-out help svgicon -->
  <svgicon :name="icon"></svgicon>
</a>
``` -/
def render (p : Props) : RenderedAnchor :=
  { staticClass := "sidebar-button"
    classList := [toLowerCase p.type, if p.activeView.contains p.id then "active" else ""]
    href := "#"
    dataTitle := if !(p.activeView.contains p.id) then some p.tooltip else none
    helpIcon := none
    svgiconName := p.icon }

/-- The full class attribute of the anchor: Vue merges the static
`class="sidebar-button"` with the computed `:class` list. -/
def fullClassList (p : Props) : List String :=
  (render p).staticClass :: (render p).classList

/-- The `@click="$emit('button-action', id)"` handler: it evaluates a single
`$emit` expression and contains no assignment, so it returns the list of
emitted events together with the untouched props. -/
def clickHandler (p : Props) : List EmittedEvent × Props :=
  ([⟨"button-action", p.id⟩], p)

/-- The events emitted by one click. -/
def clickEmits (p : Props) : List EmittedEvent := (clickHandler p).1

/-- The commented-out help `svgicon` in the template:

```
<!-- <svgicon v-if="type !== 'Refresh'"
              v-show="activeView.includes(id)"
              class="sidebar-button__icon-help"
              :name="type === 'Mode' ? 'check3' : 'double-chev'"></svgicon> -->
```

Had it been uncommented, `v-if` would put it in the markup exactly when
`type !== 'Refresh'`, `v-show` would display it exactly when
`activeView.includes(id)`, and its glyph name would be `check3` for
`Mode` and `double-chev` otherwise.  We model the element it would
render: `none` when `v-if` removes it, otherwise the pair
(displayed?, glyph name). -/
def commentedHelpIcon (p : Props) : Option (Bool × String) :=
  if p.type != "Refresh" then
    some (p.activeView.contains p.id, if p.type == "Mode" then "check3" else "double-chev")
  else
    none

/-- One render pass: the template only reads the props (it contains no
assignment), so a pass yields the rendered output together with the
untouched props. -/
def renderPass (p : Props) : RenderedAnchor × Props := (render p, p)

/-- Concrete props used to exercise the active-class claim: an active
`Mode` button. -/
def c1Props : Props :=
  { activeView := ["annotate", "metrics"], tooltip := "Annotate mode",
    id := "annotate", icon := "annotate-view", type := "Mode" }

/-- Concrete props used to exercise the class-list claim: an inactive
`Refresh` button. -/
def c2Props : Props :=
  { activeView := [], tooltip := "Refresh", id := "refresh",
    icon := "refresh", type := "Refresh" }

/-- Concrete props on which the claimed help-icon gating (`isActive` true
and `type ≠ "Refresh"`) would display the help indicator. -/
def helpProps : Props :=
  { activeView := ["annotate", "metrics"], tooltip := "Annotate mode",
    id := "annotate", icon := "annotate-view", type := "Mode" }

/-- C1: for every `id` and `activeView`, with `type` drawn from the data
model's enum `{Mode, Metrics, Refresh}`, the rendered element's computed
class list contains `"active"` if and only if `activeView` contains `id`. -/
theorem active_iff_mem_activeView (p : Props)
    (h : p.type = "Mode" ∨ p.type = "Metrics" ∨ p.type = "Refresh") :
    "active" ∈ (render p).classList ↔ p.id ∈ p.activeView := by
  have hlow : toLowerCase p.type ≠ "active" := by
    rcases h with h | h | h <;> rw [h] <;> decide
  have hempty : ("active" : String) ≠ "" := by decide
  by_cases hm : p.id ∈ p.activeView
  · simp [render, List.elem_iff.mpr hm, hm]
  · have hc : p.activeView.contains p.id = false := by
      rw [← Bool.not_eq_true]
      exact fun hh => hm (List.elem_iff.mp hh)
    simp [render, hc, hm, List.mem_cons, Ne.symm hlow, hempty]

/-- Witness for C1 at a concrete active `Mode` button. -/
theorem active_iff_mem_activeView_witness :
    (c1Props.type = "Mode" ∨ c1Props.type = "Metrics" ∨ c1Props.type = "Refresh")
      ∧ ("active" ∈ (render c1Props).classList ↔ c1Props.id ∈ c1Props.activeView) :=
  ⟨Or.inl rfl, active_iff_mem_activeView c1Props (Or.inl rfl)⟩

/-- C2: for every props value whose `type` is one of `Mode`, `Metrics`,
`Refresh`, the computed class list equals
`[lowercase(type), isActive ? "active" : ""]` with
`isActive = activeView.includes(id)`, and it contains `lowercase(type)`
exactly once. -/
theorem classList_eq_and_type_once (p : Props)
    (h : p.type = "Mode" ∨ p.type = "Metrics" ∨ p.type = "Refresh") :
    (render p).classList
        = [toLowerCase p.type, if p.activeView.contains p.id then "active" else ""]
      ∧ (render p).classList.count (toLowerCase p.type) = 1 := by
  refine ⟨rfl, ?_⟩
  rcases h with h | h | h <;>
    cases hc : p.activeView.contains p.id <;>
      simp only [render, h, hc, if_true, if_false] <;> decide

/-- Witness for C2 at a concrete inactive `Refresh` button. -/
theorem classList_eq_and_type_once_witness :
    (c2Props.type = "Mode" ∨ c2Props.type = "Metrics" ∨ c2Props.type = "Refresh")
      ∧ (render c2Props).classList
          = [toLowerCase c2Props.type,
             if c2Props.activeView.contains c2Props.id then "active" else ""]
      ∧ (render c2Props).classList.count (toLowerCase c2Props.type) = 1 :=
  ⟨Or.inr (Or.inr rfl),
   (classList_eq_and_type_once c2Props (Or.inr (Or.inr rfl))).1,
   (classList_eq_and_type_once c2Props (Or.inr (Or.inr rfl))).2⟩

/-- C3: for every props value, the `data-title` tooltip hint carries the
`tooltip` text exactly when `activeView` does not contain `id`, and is
absent (bound to null) exactly when `activeView` contains `id`. -/
theorem tooltip_hint_iff_inactive (p : Props) :
    ((render p).dataTitle = some p.tooltip ↔ p.id ∉ p.activeView)
      ∧ ((render p).dataTitle = none ↔ p.id ∈ p.activeView) := by
  by_cases hm : p.id ∈ p.activeView
  · simp [render, List.elem_iff.mpr hm, hm]
  · have hc : p.activeView.contains p.id = false := by
      rw [← Bool.not_eq_true]
      exact fun hh => hm (List.elem_iff.mp hh)
    simp [render, hc, hm]

/-- C4: for every props value, one click emits exactly one event, named
`button-action`, whose payload is the `id` prop — independently of the
active state, since the handler never consults `activeView`. -/
theorem click_emits_single_button_action (p : Props) :
    clickEmits p = [{ name := "button-action", payload := p.id }]
      ∧ (clickEmits p).length = 1 :=
  ⟨rfl, rfl⟩

/-- C5: the `type` validator accepts exactly `Mode`, `Metrics`, `Refresh`;
it rejects `"Bogus"`, yet rendering is total and always places the
lowercased `type` in the class list — for `"Bogus"` the class list is
`["bogus", ""]` rather than a crash. -/
theorem validator_enum_and_bogus_renders :
    (∀ value : String,
        validator value = true
          ↔ (value = "Mode" ∨ value = "Metrics" ∨ value = "Refresh"))
      ∧ validator "Bogus" = false
      ∧ (∀ p : Props, toLowerCase p.type ∈ (render p).classList)
      ∧ (render (mkProps (some []) "tip" "btn" "glyph" "Bogus")).classList = ["bogus", ""] := by
  refine ⟨?_, by decide, ?_, rfl⟩
  · intro value
    rw [validator, List.elem_iff]
    simp [List.mem_cons]
  · intro p
    simp [render]

/-- C6 counterexample: at `helpProps` both claimed gating conditions hold
(`activeView` contains `id`, `type ≠ "Refresh"`), yet the rendered markup
contains no help indicator icon — the `svgicon` is commented out in the
template and never rendered. -/
theorem helpIcon_absent_cex :
    helpProps.activeView.contains helpProps.id = true
      ∧ (helpProps.type != "Refresh") = true
      ∧ (render helpProps).helpIcon = none :=
  ⟨rfl, rfl, rfl⟩

/-- C6 (amended): the help indicator is commented out, so for every props
value the rendered markup contains none; the commented-out markup encodes
the gating — it would appear in the markup iff `type !== "Refresh"`
(`v-if`) and be displayed iff additionally `activeView` contains `id`
(`v-show`). -/
theorem helpIcon_commented_gating (p : Props) :
    (render p).helpIcon = none
      ∧ (commentedHelpIcon p).isSome = (p.type != "Refresh")
      ∧ (commentedHelpIcon p).elim false Prod.fst
          = ((p.type != "Refresh") && p.activeView.contains p.id) := by
  refine ⟨rfl, ?_, ?_⟩ <;>
    cases ht : p.type != "Refresh" <;> simp [commentedHelpIcon, ht]

/-- C7: a parent that supplies no `activeView` gets the declared default
`[]`: the props resolve exactly as with an explicit empty list, the button
renders inactive (empty second class entry), and the tooltip hint is
present. -/
theorem activeView_default_empty (tooltip id icon ty : String) :
    mkProps none tooltip id icon ty = mkProps (some []) tooltip id icon ty
      ∧ (mkProps none tooltip id icon ty).activeView = []
      ∧ (render (mkProps none tooltip id icon ty)).classList = [toLowerCase ty, ""]
      ∧ (render (mkProps none tooltip id icon ty)).dataTitle = some tooltip :=
  ⟨rfl, rfl, rfl, rfl⟩

/-- C8: neither a render pass nor the click handler mutates any prop — both
return the props unchanged — and the rendered output and the emitted
events are the pure functions `render` and `clickEmits` of the props
alone. -/
theorem props_readonly (p : Props) :
    (renderPass p).2 = p
      ∧ (clickHandler p).2 = p
      ∧ (renderPass p).1 = render p
      ∧ (clickHandler p).1 = clickEmits p :=
  ⟨rfl, rfl, rfl, rfl⟩

/-- C9: the rendered output depends on `activeView` only through
membership: two `activeView` lists with the same elements — any
permutation, any duplication — render identically. -/
theorem render_respects_membership_equiv (p : Props) (l m : List String)
    (h : ∀ s, s ∈ l ↔ s ∈ m) :
    render { p with activeView := l } = render { p with activeView := m } := by
  have hmem : ∀ (xs : List String) (a : String), xs.contains a = true ↔ a ∈ xs :=
    fun _ _ => List.elem_iff
  have hc : l.contains p.id = m.contains p.id := by
    by_cases hm : p.id ∈ m
    · rw [(hmem l p.id).mpr ((h p.id).mpr hm), (hmem m p.id).mpr hm]
    · have h1 : l.contains p.id = false := by
        rw [← Bool.not_eq_true]
        exact fun hh => hm ((h p.id).mp (List.elem_iff.mp hh))
      have h2 : m.contains p.id = false := by
        rw [← Bool.not_eq_true]
        exact fun hh => hm (List.elem_iff.mp hh)
      rw [h1, h2]
  simp only [render, hc]

/-- Witness for C9: a permutation with a duplicated entry renders the same
as the original list. -/
theorem render_respects_membership_equiv_witness :
    render { activeView := ["metrics", "annotate"], tooltip := "tip",
             id := "annotate", icon := "glyph", type := "Mode" }
      = render { activeView := ["annotate", "annotate", "metrics"], tooltip := "tip",
                 id := "annotate", icon := "glyph", type := "Mode" } :=
  render_respects_membership_equiv
    { activeView := [], tooltip := "tip", id := "annotate", icon := "glyph", type := "Mode" }
    ["metrics", "annotate"] ["annotate", "annotate", "metrics"]
    (by intro s; simp [List.mem_cons]; tauto)

/-- C10: for every props value the anchor carries the static class
`sidebar-button` in addition to the two computed entries — three entries in
all — and always has `href="#"` and renders the glyph named by the `icon`
prop. -/
theorem anchor_invariants (p : Props) :
    (render p).staticClass = "sidebar-button"
      ∧ (render p).href = "#"
      ∧ (render p).svgiconName = p.icon
      ∧ fullClassList p = "sidebar-button" :: (render p).classList
      ∧ (fullClassList p).length = 3 :=
  ⟨rfl, rfl, rfl, rfl, rfl⟩

end SidebarButton
